import Mathlib

/-!
Verification of the `password-toolkit` library (`src/constants.js`,
`src/defaults.js`, `src/functions.js`, `src/index.js`).

The JavaScript class `PasswordToolKit` is embedded shallowly:

* the four alphabet constants are Lean `String`s copied from the source;
* JavaScript field values that may be absent are `Option`s; field values
  whose runtime type matters (the four boolean flags, the elements of the
  `suggestions`/`qualities` arrays) are a small `JSVal` type covering the
  primitive values, so that the `typeof`-based checks of the source are
  representable; sizes and `maximum` are `Int` following the data model
  (`size`/`maximum` are integers);
* the regular expressions of `constants.js` are translated to executable
  Boolean matchers over `List Char` with JavaScript (non-`u`, non-`s`)
  semantics: `\d` is `[0-9]`, `\w` is `[A-Za-z0-9_]`, and `.` excludes the
  four line terminators;
* `Math.random`-driven draws are an explicit draw function `g : Nat → Nat`;
  `Math.floor (Math.random () * n)` always lies in `[0, n)`, which appears
  as a hypothesis on `g`;
* thrown `TypeError`/`RangeError` of the constructor become `Except`.
-/

namespace PasswordToolKit

/-- Source constant `numbers` (functions.js line 24): the digits 0-9. -/
def numbers : String := "0123456789"

/-- Source constant `symbols` (functions.js line 33): the ASCII punctuation
set used for generated passwords. -/
def symbols : String := "!\x22#$%&\x27()*+,-./:;<=>?@[\\]^_`\x7b|\x7d~"

/-- Source constant `lowercases` (functions.js line 42). -/
def lowercases : String := "abcdefghijklmnopqrstuvwxyz"

/-- Source constant `uppercases` (functions.js line 51). -/
def uppercases : String := "ABCDEFGHIJKLMNOPQRSTUVWXYZ"

/-- A JavaScript primitive value, enough to represent the values the source
inspects with `typeof`: booleans, numbers, strings and null. -/
inductive JSVal where
  | vBool : Bool → JSVal
  | vNum : Int → JSVal
  | vStr : String → JSVal
  | vNull : JSVal
deriving DecidableEq

/-- `typeof v === 'boolean'`. -/
def JSVal.isBool : JSVal → Bool
  | .vBool _ => true
  | _ => false

/-- `typeof v === 'string'`. -/
def JSVal.isStr : JSVal → Bool
  | .vStr _ => true
  | _ => false

/-- The string payload of a string value (only used after `everyString`
has established that every element is a string). -/
def JSVal.asString : JSVal → String
  | .vStr s => s
  | _ => ""

/-- JavaScript truthiness of a primitive value. -/
def JSVal.truthy : JSVal → Bool
  | .vBool b => b
  | .vNum n => n != 0
  | .vStr s => s != ""
  | .vNull => false

/-- Truthiness of a possibly absent property (`undefined` is falsy). -/
def truthyOpt : Option JSVal → Bool
  | none => false
  | some j => j.truthy

/-- Source `everyString` (functions.js line 115):
`target.every(item => typeof item === 'string')`. -/
def everyString (target : List JSVal) : Bool := target.all (fun item => item.isStr)

/-- Source default `suggestions` (defaults.js lines 157-165). -/
def defaultSuggestions : List String :=
  [ "The password must have at least 8 characters.",
    "Add uppercase and lowercase letters to make the password more secure.",
    "Add numbers to make the password more secure.",
    "Add symbols to make the password more secure.",
    "Avoid using repeated characters in the password.",
    "Avoid using common password patterns.",
    "Excellent! The password is secure." ]

/-- Source default `qualities` (defaults.js line 173). -/
def defaultQualities : List String := ["insecure", "low", "medium", "high", "perfect"]

/-- A settings object as accepted by the constructor.  Fields are optional
(`Reflect.has` is `isSome`).  The model types already satisfy the
constructor's first three `typeof`/`Array.isArray` checks (settings is an
object, `suggestions`/`qualities` arrays, `maximum` a number); the
remaining checks (element types, lengths) are modelled below. -/
structure Settings where
  suggestions : Option (List JSVal) := none
  qualities : Option (List JSVal) := none
  maximum : Option Int := none

/-- A thrown constructor error: `TypeError` or `RangeError` with its
message. -/
inductive JSError where
  | typeErr : String → JSError
  | rangeErr : String → JSError
deriving DecidableEq

/-- The immutable state stored on a constructed instance
(functions.js lines 304-323). -/
structure Toolkit where
  suggestions : List String
  qualities : List String
  maximum : Int
deriving DecidableEq

/-- A present array with a non-string element
(`Reflect.has(...) && !everyString(...)`). -/
def hasNonString : Option (List JSVal) → Bool
  | none => false
  | some l => !everyString l

/-- A present array whose length differs from `n`
(`Reflect.has(...) && arr.length !== n`). -/
def lengthNe (o : Option (List JSVal)) (n : Nat) : Bool :=
  match o with
  | none => false
  | some l => l.length != n

/-- `settings.field || default` for the two string arrays: a present array
is truthy in JavaScript, an absent one is `undefined` and falsy. -/
def orDefault (o : Option (List JSVal)) (d : List String) : List String :=
  match o with
  | none => d
  | some l => l.map JSVal.asString

/-- `settings.maximum || 30` (functions.js line 318): any falsy number
(the integer 0) falls back to the default 30. -/
def maxOrDefault : Option Int → Int
  | none => 30
  | some m => if m = 0 then 30 else m

/-- The constructor (functions.js lines 279-324), as the checks apply to a
`Settings` value: the element-type checks fire before the length checks,
and on success the instance stores the given or default arrays and
maximum. -/
def mkToolkit (settings : Settings) : Except JSError Toolkit :=
  if hasNonString settings.suggestions then
    .error (.typeErr "All \x22suggestions\x22 values must be a string type.")
  else if hasNonString settings.qualities then
    .error (.typeErr "All \x22qualities\x22 values must be a string type.")
  else if lengthNe settings.suggestions 7 then
    .error (.rangeErr "The \x22suggestions\x22 elements number must be equal to 7.")
  else if lengthNe settings.qualities 5 then
    .error (.rangeErr "The \x22qualities\x22 elements number must be equal to 5.")
  else
    .ok ⟨orDefault settings.suggestions defaultSuggestions,
         orDefault settings.qualities defaultQualities,
         maxOrDefault settings.maximum⟩

/-- The instance produced by `new PasswordToolKit()` with no settings. -/
def defaultToolkit : Toolkit := ⟨defaultSuggestions, defaultQualities, 30⟩

/-- An options object passed to `checkOptions`/`generate`.  Each property is
optional; `size` is an integer per the data model, the four flags carry any
primitive value so the `typeof ... !== 'boolean'` checks are
representable. -/
structure GenRequest where
  size : Option Int := none
  numbers : Option JSVal := none
  symbols : Option JSVal := none
  uppercases : Option JSVal := none
  lowercases : Option JSVal := none
deriving DecidableEq

/-- An arbitrary argument to `checkOptions`/`generate`: either a value with
`typeof !== 'object'` (a primitive), or an object with the optional
properties above. -/
inductive ReqVal where
  | notObject
  | obj : GenRequest → ReqVal
deriving DecidableEq

/-- The `OptionsValidation` result object `{ ok, reason }`. -/
structure CheckResult where
  ok : Bool
  reason : Option String
deriving DecidableEq

/-- A present flag property whose value is not a boolean
(`Reflect.has(options, f) && typeof options[f] !== 'boolean'`). -/
def badFlag : Option JSVal → Bool
  | none => false
  | some j => !j.isBool

/-- Source `checkOptions` (functions.js lines 334-363): the sequential
checks in source order, returning at the first failure. -/
def checkOptions (tk : Toolkit) (v : ReqVal) : CheckResult :=
  match v with
  | .notObject => ⟨false, some "Options must be an object."⟩
  | .obj r =>
    match r.size with
    | none => ⟨false, some "The \x22size\x22 property is required."⟩
    | some sz =>
      if sz < 1 then
        ⟨false, some "The password length must be greater than 1."⟩
      else if sz > tk.maximum then
        ⟨false, some "The password length must be less than specified maximum."⟩
      else if badFlag r.numbers then
        ⟨false, some "The \x22numbers\x22 option must be a boolean."⟩
      else if badFlag r.symbols then
        ⟨false, some "The \x22symbols\x22 option must be a boolean."⟩
      else if badFlag r.uppercases then
        ⟨false, some "The \x22uppercases\x22 option must be a boolean."⟩
      else if badFlag r.lowercases then
        ⟨false, some "The \x22lowercases\x22 option must be a boolean."⟩
      else if !truthyOpt r.numbers && !truthyOpt r.symbols &&
          !truthyOpt r.uppercases && !truthyOpt r.lowercases then
        ⟨false, some "You must select at least one option to generate the password."⟩
      else ⟨true, none⟩

/-- Source `getSelectedChars` (functions.js lines 82-87): the object spread
`{...(options.numbers && { numbers }), ...}` keeps, in insertion order, the
alphabets whose flag is truthy. -/
def getSelectedChars (r : GenRequest) : List String :=
  (if truthyOpt r.numbers then [numbers] else []) ++
  (if truthyOpt r.symbols then [symbols] else []) ++
  (if truthyOpt r.uppercases then [uppercases] else []) ++
  (if truthyOpt r.lowercases then [lowercases] else [])

/-- Source `charsToArray` (functions.js line 101):
`Object.values(selected).flatMap(value => value.split(''))`. -/
def charsToArray (selected : List String) : List Char :=
  selected.flatMap (fun value => value.toList)

/-- JavaScript array indexing inside the `join('')`: an in-range index
contributes the character, an out-of-range access is `undefined`, which
`join` renders as the empty string.  (The actual draws of
`getRandomNumber` are always in range.) -/
def jsIndex (chars : List Char) (i : Nat) : List Char :=
  match chars.get? i with
  | some c => [c]
  | none => []

/-- Source `generate` (functions.js lines 378-388): validates the options,
returning `null` on failure, otherwise maps `size` independent draws of
`getRandomNumber(chars.length)` over the flattened selected alphabets and
joins them.  The draw sequence is the explicit function `g`. -/
def generate (g : Nat → Nat) (tk : Toolkit) (v : ReqVal) : Option String :=
  if (checkOptions tk v).ok then
    match v with
    | .notObject => none
    | .obj r =>
      some ⟨((List.range (r.size.getD 0).toNat).map
        (fun i => jsIndex (charsToArray (getSelectedChars r)) (g i))).flatten⟩
  else none

/-- An ASCII digit: the character class `\d` of a non-Unicode JavaScript
regular expression. -/
def isDigitChar (c : Char) : Bool := '0' ≤ c && c ≤ '9'

/-- The character class `[A-Z]`. -/
def isUpperChar (c : Char) : Bool := 'A' ≤ c && c ≤ 'Z'

/-- The character class `[a-z]`. -/
def isLowerChar (c : Char) : Bool := 'a' ≤ c && c ≤ 'z'

/-- The character class `[A-Za-z]`. -/
def isLetterChar (c : Char) : Bool := isUpperChar c || isLowerChar c

/-- The character class `[A-Za-z\d]`. -/
def isAlnumChar (c : Char) : Bool := isLetterChar c || isDigitChar c

/-- The character class `\w`, i.e. `[A-Za-z0-9_]`. -/
def isWordChar (c : Char) : Bool := isAlnumChar c || c == '_'

/-- A JavaScript line terminator, the characters NOT matched by `.` in a
regular expression without the `s` flag. -/
def isLineTerm (c : Char) : Bool :=
  c == '\n' || c == '\r' || c == '\u2028' || c == '\u2029'

/-- `regexps.numbers.test`, the regex `\d`: some character is a digit. -/
def numbersTest (s : List Char) : Bool := s.any isDigitChar

/-- `regexps.symbols.test`, the regex `[\W_]`: some character is a
non-word character or an underscore. -/
def symbolsTest (s : List Char) : Bool := s.any (fun c => !isWordChar c || c == '_')

/-- `regexps.uppercases.test`, the regex `[A-Z]`. -/
def uppercasesTest (s : List Char) : Bool := s.any isUpperChar

/-- `regexps.lowercases.test`, the regex `[a-z]`. -/
def lowercasesTest (s : List Char) : Bool := s.any isLowerChar

/-- Helper for `regexps.repeated.test`: with the first occurrence of `c`
captured by `(.)`, scan for a later occurrence of `c` reachable through
`.*?`, which cannot cross a line terminator. -/
def repeatedFrom (c : Char) : List Char → Bool
  | [] => false
  | d :: rest => if d == c then true else if isLineTerm d then false else repeatedFrom c rest

/-- `regexps.repeated.test`, the regex `(.).*?\1`: some non-line-terminator
character occurs twice, with no line terminator strictly between the two
occurrences. -/
def repeatedTest : List Char → Bool
  | [] => false
  | c :: rest => (!isLineTerm c && repeatedFrom c rest) || repeatedTest rest

/-- `n` consecutive characters satisfying `p` at the head of the list
(the regex fragment `X{n}` anchored at the current position). -/
def startsWithRun (p : Char → Bool) : Nat → List Char → Bool
  | 0, _ => true
  | _ + 1, [] => false
  | n + 1, c :: rest => p c && startsWithRun p n rest

/-- The regex `X{n}` unanchored: some suffix starts with `n` consecutive
characters satisfying `p`. -/
def hasRun (p : Char → Bool) (n : Nat) : List Char → Bool
  | [] => startsWithRun p n []
  | c :: rest => startsWithRun p n (c :: rest) || hasRun p n rest

/-- The regexes `[A-Za-z]+\d+[A-Za-z]*` / `[A-Za-z]*\d+[A-Za-z]+` match
exactly when a `p`-character is immediately followed by a `q`-character
(the starred parts may be empty and the plus parts have length one). -/
def hasAdj (p q : Char → Bool) : List Char → Bool
  | [] => false
  | [_] => false
  | a :: b :: rest => (p a && q b) || hasAdj p q (b :: rest)

/-- Pattern 1, `\d{4}`: four consecutive digits. -/
def pat1 (s : List Char) : Bool := hasRun isDigitChar 4 s

/-- Pattern 2, `\d{6}`: six consecutive digits. -/
def pat2 (s : List Char) : Bool := hasRun isDigitChar 6 s

/-- Pattern 3, `[A-Za-z]{4}`: four consecutive letters. -/
def pat3 (s : List Char) : Bool := hasRun isLetterChar 4 s

/-- Pattern 4, `[A-Za-z]{6}`: six consecutive letters. -/
def pat4 (s : List Char) : Bool := hasRun isLetterChar 6 s

/-- Pattern 5, `([A-Za-z\d])\1{2,}`: an alphanumeric character followed by
at least two further copies of itself. -/
def pat5 : List Char → Bool
  | [] => false
  | c :: rest => (isAlnumChar c && startsWithRun (fun d => d == c) 2 rest) || pat5 rest

/-- Pattern 6, `[A-Za-z]+\d+[A-Za-z]*`: a letter immediately followed by a
digit. -/
def pat6 (s : List Char) : Bool := hasAdj isLetterChar isDigitChar s

/-- Pattern 7, `[A-Za-z]*\d+[A-Za-z]+`: a digit immediately followed by a
letter. -/
def pat7 (s : List Char) : Bool := hasAdj isDigitChar isLetterChar s

/-- Pattern 8, `([A-Za-z\d])\1{3,}`: an alphanumeric character followed by
at least three further copies of itself. -/
def pat8 : List Char → Bool
  | [] => false
  | c :: rest => (isAlnumChar c && startsWithRun (fun d => d == c) 3 rest) || pat8 rest

/-- Source `patterns` (constants.js lines 494-503), in source order. -/
def patternsList : List (List Char → Bool) := [pat1, pat2, pat3, pat4, pat5, pat6, pat7, pat8]

/-- The pattern list of the spec's design note with patterns 5 and 8 (the
consecutive-identical-characters patterns) removed; used only to compare
against the source list. -/
def patternsReduced : List (List Char → Bool) := [pat1, pat2, pat3, pat4, pat6, pat7]

/-- One `{ level, quality, suggestion }` result object of `evaluate`, with
`quality`/`suggestion` read at the given indices of the instance arrays. -/
structure Evaluation where
  level : Nat
  quality : String
  suggestion : String
deriving DecidableEq

/-- The result object `{ level, quality: this.qualities[q], suggestion:
this.suggestions[s] }`. -/
def evalRow (tk : Toolkit) (level q s : Nat) : Evaluation :=
  ⟨level, tk.qualities.getD q "", tk.suggestions.getD s ""⟩

/-- Source `evaluate` (functions.js lines 403-443) with the pattern list as
a parameter: the ordered checks, returning at the first that fires.  The
`typeof password !== 'string'` guard is the `String` type of the
argument. -/
def evaluateWith (pats : List (List Char → Bool)) (tk : Toolkit) (password : String) :
    Evaluation :=
  if password.toList.length < 8 then evalRow tk 0 0 0
  else if !lowercasesTest password.toList || !uppercasesTest password.toList then
    evalRow tk 1 1 1
  else if !numbersTest password.toList then evalRow tk 2 1 2
  else if !symbolsTest password.toList then evalRow tk 3 2 3
  else if repeatedTest password.toList then evalRow tk 4 3 4
  else if pats.any (fun t => t password.toList) then evalRow tk 4 3 5
  else evalRow tk 5 4 6

/-- Source `evaluate`: the classifier with the source pattern list. -/
def evaluate (tk : Toolkit) (password : String) : Evaluation :=
  evaluateWith patternsList tk password

/-- The seven rows of the classification table, built over an instance's
`qualities` and `suggestions` arrays. -/
def rowsOf (tk : Toolkit) : List Evaluation :=
  [evalRow tk 0 0 0, evalRow tk 1 1 1, evalRow tk 2 1 2, evalRow tk 3 2 3,
   evalRow tk 4 3 4, evalRow tk 4 3 5, evalRow tk 5 4 6]

/-- The spec's wording of a symbol in the table row for level 3: any
non-word, non-space character. -/
def symbolPerSpec (c : Char) : Bool := !isWordChar c && !(c == ' ')

/-- A non-alphanumeric character: exactly the characters the source regex
`[\W_]` matches. -/
def nonAlnum (c : Char) : Bool := !isAlnumChar c

/-- Membership in the union of the alphabets whose request flags are set:
the vocabulary of the claim about `generate`. -/
def inSelectedAlphabets (r : GenRequest) (c : Char) : Prop :=
  (truthyOpt r.numbers = true ∧ c ∈ numbers.toList) ∨
  (truthyOpt r.symbols = true ∧ c ∈ symbols.toList) ∨
  (truthyOpt r.uppercases = true ∧ c ∈ uppercases.toList) ∨
  (truthyOpt r.lowercases = true ∧ c ∈ lowercases.toList)

/-- A request that passes every documented check of `checkOptions`: size
present and in range, every present flag boolean, some flag true. -/
def validRequest (tk : Toolkit) (r : GenRequest) : Prop :=
  r.size.isSome = true ∧ 1 ≤ r.size.getD 0 ∧ r.size.getD 0 ≤ tk.maximum ∧
  (∀ j, r.numbers = some j → j.isBool = true) ∧
  (∀ j, r.symbols = some j → j.isBool = true) ∧
  (∀ j, r.uppercases = some j → j.isBool = true) ∧
  (∀ j, r.lowercases = some j → j.isBool = true) ∧
  (truthyOpt r.numbers = true ∨ truthyOpt r.symbols = true ∨
   truthyOpt r.uppercases = true ∨ truthyOpt r.lowercases = true)

/-- On any character, the symbol regex `[\W_]` of the source agrees with
"non-alphanumeric". -/
theorem wordChar_or_underscore (c : Char) : (!isWordChar c || c == '_') = nonAlnum c := by
  by_cases h : c = '_'
  · subst h; decide
  · have hb : (c == '_') = false := by simp [h]
    simp [isWordChar, nonAlnum, hb]

/-- The symbol test of the source holds exactly when some character is
non-alphanumeric. -/
theorem symbolsTest_eq (s : List Char) : symbolsTest s = s.any nonAlnum := by
  unfold symbolsTest
  congr 1
  funext c
  exact wordChar_or_underscore c

/-- C4: on the default instance, `evaluate "Ma$bel-561"` reaches the final
row: level 5, quality `"perfect"` (qualities index 4) and the final
suggestion (suggestions index 6); the password has no repeated character
and matches none of the 8 common patterns. -/
theorem C4_evaluate_Mabel :
    evaluate defaultToolkit "Ma$bel-561" =
      ⟨5, "perfect", "Excellent! The password is secure."⟩ ∧
    evaluate defaultToolkit "Ma$bel-561" = evalRow defaultToolkit 5 4 6 ∧
    repeatedTest "Ma$bel-561".toList = false ∧
    patternsList.any (fun t => t "Ma$bel-561".toList) = false := by
  decide

/-- C10: constructing with `maximum` equal to the number 0 succeeds and the
instance's maximum is the default 30 (`settings.maximum || 30` treats the
falsy 0 as absent), so `checkOptions` on that instance accepts size 30 and
rejects size 31 instead of rejecting every size. -/
theorem C10_zero_maximum :
    mkToolkit {maximum := some 0} = .ok ⟨defaultSuggestions, defaultQualities, 30⟩ ∧
    (checkOptions ⟨defaultSuggestions, defaultQualities, 30⟩
      (.obj {size := some 30, lowercases := some (.vBool true)})).ok = true ∧
    (checkOptions ⟨defaultSuggestions, defaultQualities, 30⟩
      (.obj {size := some 1, lowercases := some (.vBool true)})).ok = true ∧
    (checkOptions ⟨defaultSuggestions, defaultQualities, 30⟩
      (.obj {size := some 31, lowercases := some (.vBool true)})).ok = false :=
  ⟨rfl, by decide, by decide, by decide⟩

/-- C1, counterexample: the password `"Abcdef1 "` (trailing space) has at
least 8 characters, a lowercase letter, an uppercase letter and a digit,
and contains no symbol in the spec's sense (no non-word, non-space
character), yet `evaluate` does not return the level-3 row, because the
source regex `[\W_]` also counts the space as a symbol.  This refutes the
claimed "exactly when". -/
theorem C1_counterexample :
    (¬ "Abcdef1 ".toList.length < 8) ∧
    lowercasesTest "Abcdef1 ".toList = true ∧
    uppercasesTest "Abcdef1 ".toList = true ∧
    numbersTest "Abcdef1 ".toList = true ∧
    "Abcdef1 ".toList.any symbolPerSpec = false ∧
    ¬ (evaluate defaultToolkit "Abcdef1 " = evalRow defaultToolkit 3 2 3) := by
  decide

/-- C1, amended: for every instance and every password of length at least 8
with a lowercase letter, an uppercase letter and a digit, `evaluate`
returns level 3 with quality index 2 and suggestion index 3 exactly when
the password is missing a symbol, where a symbol is any non-alphanumeric
character (the characters matched by the source regex `[\W_]`, which
include the space and the underscore). -/
theorem C1_corrected (tk : Toolkit) (p : String)
    (h8 : ¬ p.toList.length < 8)
    (hl : lowercasesTest p.toList = true)
    (hu : uppercasesTest p.toList = true)
    (hn : numbersTest p.toList = true) :
    evaluate tk p = evalRow tk 3 2 3 ↔ p.toList.any nonAlnum = false := by
  have hsq := symbolsTest_eq p.toList
  unfold evaluate evaluateWith
  rw [if_neg h8, if_neg (by rw [hl, hu]; simp), if_neg (by rw [hn]; simp)]
  cases hsym : p.toList.any nonAlnum with
  | false =>
    rw [hsym] at hsq
    rw [if_pos (by rw [hsq]; rfl)]
    exact iff_of_true rfl rfl
  | true =>
    rw [hsym] at hsq
    rw [if_neg (by rw [hsq]; simp)]
    refine iff_of_false ?_ (by simp)
    intro hEq
    split_ifs at hEq <;> simp [evalRow, Evaluation.mk.injEq] at hEq

/-- C1, witness: on the default instance, the all-alphanumeric password
`"Abcdefg1"` instantiates the amended claim. -/
theorem C1_witness :
    evaluate defaultToolkit "Abcdefg1" = evalRow defaultToolkit 3 2 3 ↔
      "Abcdefg1".toList.any nonAlnum = false :=
  C1_corrected defaultToolkit "Abcdefg1" (by decide) (by decide) (by decide) (by decide)

/-- C9: `evaluate` is total and deterministic on strings: every password
(the empty string included) is mapped to one of the seven rows of the
classification table over the instance's arrays, and the result of a pure
function is the same on every call with the same input. -/
theorem C9_total_deterministic (tk : Toolkit) (p : String) :
    evaluate tk p ∈ rowsOf tk ∧ evaluate tk p = evaluate tk p := by
  refine ⟨?_, rfl⟩
  unfold evaluate evaluateWith
  repeat' split
  all_goals simp [rowsOf]

/-- A run of `n + 1` characters satisfying `p` is in particular a run of
`n` such characters. -/
theorem startsWithRun_mono (p : Char → Bool) :
    ∀ (n : Nat) (s : List Char),
      startsWithRun p (n + 1) s = true → startsWithRun p n s = true := by
  intro n
  induction n with
  | zero => intro s _; rfl
  | succ m ih =>
    intro s h
    cases s with
    | nil => exact absurd h (by simp [startsWithRun])
    | cons c rest =>
      simp only [startsWithRun, Bool.and_eq_true] at h ⊢
      exact ⟨h.1, ih rest h.2⟩

/-- An alphanumeric character is not a line terminator. -/
theorem alnum_not_lineTerm (c : Char) (h : isAlnumChar c = true) : isLineTerm c = false := by
  cases hl : isLineTerm c
  · rfl
  · exfalso
    simp only [isLineTerm, Bool.or_eq_true, beq_iff_eq] at hl
    rcases hl with ((rfl | rfl) | rfl) | rfl <;> exact absurd h (by decide)

/-- A match of pattern 8 (four identical consecutive alphanumerics) is a
match of pattern 5 (three identical consecutive alphanumerics). -/
theorem pat8_imp_pat5 : ∀ s : List Char, pat8 s = true → pat5 s = true := by
  intro s
  induction s with
  | nil => intro h; exact absurd h (by simp [pat8])
  | cons c rest ih =>
    intro h
    simp only [pat8, Bool.or_eq_true, Bool.and_eq_true] at h
    simp only [pat5, Bool.or_eq_true, Bool.and_eq_true]
    rcases h with ⟨ha, hr⟩ | h
    · exact Or.inl ⟨ha, startsWithRun_mono _ 2 rest hr⟩
    · exact Or.inr (ih h)

/-- A match of pattern 5 contains two identical adjacent alphanumeric
characters, so the repeated-characters regex `(.).*?\1` matches as well. -/
theorem pat5_imp_repeated : ∀ s : List Char, pat5 s = true → repeatedTest s = true := by
  intro s
  induction s with
  | nil => intro h; exact absurd h (by simp [pat5])
  | cons c rest ih =>
    intro h
    simp only [pat5, Bool.or_eq_true, Bool.and_eq_true] at h
    simp only [repeatedTest, Bool.or_eq_true, Bool.and_eq_true]
    rcases h with ⟨ha, hr⟩ | h
    · left
      refine ⟨by simp [alnum_not_lineTerm c ha], ?_⟩
      cases rest with
      | nil => exact absurd hr (by simp [startsWithRun])
      | cons d rest2 =>
        simp only [startsWithRun, Bool.and_eq_true] at hr
        simp [repeatedFrom, hr.1]
    · exact Or.inr (ih h)

/-- When the repeated-characters check has already failed, patterns 5 and 8
cannot match, so the full pattern list and the reduced one agree. -/
theorem any_patterns_eq_of_not_repeated (s : List Char) (h : repeatedTest s = false) :
    patternsList.any (fun t => t s) = patternsReduced.any (fun t => t s) := by
  have h5 : pat5 s = false := by
    cases h5 : pat5 s
    · rfl
    · rw [pat5_imp_repeated s h5] at h; exact absurd h (by simp)
  have h8 : pat8 s = false := by
    cases h8 : pat8 s
    · rfl
    · rw [pat5_imp_repeated s (pat8_imp_pat5 s h8)] at h; exact absurd h (by simp)
  simp [patternsList, patternsReduced, h5, h8]

/-- C5: common-pattern checks 5 and 8 are redundant: on every instance and
every password, `evaluate` with the full 8-pattern list equals `evaluate`
with patterns 5 and 8 removed, because a string matching either pattern
contains two identical (adjacent) characters and is already classified by
the preceding repeated-characters rule. -/
theorem C5_patterns_redundant (tk : Toolkit) (p : String) :
    evaluate tk p = evaluateWith patternsReduced tk p := by
  unfold evaluate evaluateWith
  cases hrep : repeatedTest p.toList with
  | true => simp [hrep]
  | false => rw [any_patterns_eq_of_not_repeated p.toList hrep]

/-- C3: `generate` returns `null` exactly when `checkOptions` rejects the
same request, and on an accepted request it returns a string (total, no
exception in the model). -/
theorem C3_generate_null_iff (g : Nat → Nat) (tk : Toolkit) (v : ReqVal) :
    (generate g tk v = none ↔ (checkOptions tk v).ok = false) ∧
    ((checkOptions tk v).ok = true → ∃ pw, generate g tk v = some pw) := by
  cases v with
  | notObject =>
    constructor
    · simp [generate, checkOptions]
    · intro h; exact absurd h (by simp [checkOptions])
  | obj r =>
    cases hok : (checkOptions tk (.obj r)).ok with
    | false =>
      constructor
      · simp [generate, hok]
      · intro h; exact absurd h (by simp)
    | true =>
      constructor
      · simp [generate, hok]
      · intro _
        refine ⟨⟨((List.range (r.size.getD 0).toNat).map
            (fun i => jsIndex (charsToArray (getSelectedChars r)) (g i))).flatten⟩, ?_⟩
        simp [generate, hok]

/-- C3, witness: a concrete accepted request on the default instance, with
the constant draw function, produces a string. -/
theorem C3_witness :
    ∃ pw, generate (fun _ => 0) defaultToolkit
      (.obj {size := some 2, numbers := some (.vBool true)}) = some pw :=
  (C3_generate_null_iff (fun _ => 0) defaultToolkit
    (.obj {size := some 2, numbers := some (.vBool true)})).2 (by decide)

/-- C7, counterexample: the claim quantifies over every instance, but the
constructor accepts a negative `maximum` (e.g. -5, a truthy number), and on
that instance `checkOptions` with `size = maximum + 1 = -4` fails with the
"greater than 1" reason, not the "greater than specified maximum" one,
because `size < 1` is checked first. -/
theorem C7_counterexample :
    mkToolkit {maximum := some (-5)} = .ok ⟨defaultSuggestions, defaultQualities, -5⟩ ∧
    checkOptions ⟨defaultSuggestions, defaultQualities, -5⟩ (.obj {size := some (-5 + 1)}) =
      ⟨false, some "The password length must be greater than 1."⟩ ∧
    ¬ (checkOptions ⟨defaultSuggestions, defaultQualities, -5⟩
        (.obj {size := some (-5 + 1)})).reason =
      some "The password length must be less than specified maximum." :=
  ⟨rfl, by decide, by decide⟩

/-- C7, amended: on every instance whose maximum is nonnegative, the
size-range checks fire before the flag checks and in source order:
`{size: 0}` fails with the "greater than 1" reason and
`{size: maximum+1}` fails with the "greater than specified maximum"
reason, although neither request has a flag set. -/
theorem C7_corrected (tk : Toolkit) (hm : 0 ≤ tk.maximum) :
    checkOptions tk (.obj {size := some 0}) =
      ⟨false, some "The password length must be greater than 1."⟩ ∧
    checkOptions tk (.obj {size := some (tk.maximum + 1)}) =
      ⟨false, some "The password length must be less than specified maximum."⟩ := by
  constructor
  · rfl
  · simp only [checkOptions]
    rw [if_neg (by omega), if_pos (by omega)]

/-- C7, witness: the default instance has maximum 30, where size 0 and
size 31 give the two reasons. -/
theorem C7_witness :
    checkOptions defaultToolkit (.obj {size := some 0}) =
      ⟨false, some "The password length must be greater than 1."⟩ ∧
    checkOptions defaultToolkit (.obj {size := some (defaultToolkit.maximum + 1)}) =
      ⟨false, some "The password length must be less than specified maximum."⟩ :=
  C7_corrected defaultToolkit (by decide)

/-- C8: the constructor rejects an all-string `suggestions` array of length
6 or 8 with the `RangeError` about 7 elements, but rejects a length-7
array containing a non-string element with the `TypeError` about string
values: the element-type check precedes the length check. -/
theorem C8_constructor_errors (l6 l8 l7 : List JSVal)
    (h6 : l6.length = 6) (h8 : l8.length = 8) (h7 : l7.length = 7)
    (hs6 : everyString l6 = true) (hs8 : everyString l8 = true)
    (hbad : everyString l7 = false) :
    mkToolkit {suggestions := some l6} =
      .error (.rangeErr "The \x22suggestions\x22 elements number must be equal to 7.") ∧
    mkToolkit {suggestions := some l8} =
      .error (.rangeErr "The \x22suggestions\x22 elements number must be equal to 7.") ∧
    mkToolkit {suggestions := some l7} =
      .error (.typeErr "All \x22suggestions\x22 values must be a string type.") := by
  refine ⟨?_, ?_, ?_⟩ <;>
    simp [mkToolkit, hasNonString, lengthNe, hs6, hs8, hbad, h6, h8, h7]

/-- C8, witness: concrete arrays of 6 and 8 strings and of 6 strings plus a
number. -/
theorem C8_witness :
    mkToolkit {suggestions := some [.vStr "a", .vStr "b", .vStr "c", .vStr "d",
        .vStr "e", .vStr "f"]} =
      .error (.rangeErr "The \x22suggestions\x22 elements number must be equal to 7.") ∧
    mkToolkit {suggestions := some [.vStr "a", .vStr "b", .vStr "c", .vStr "d",
        .vStr "e", .vStr "f", .vStr "g", .vStr "h"]} =
      .error (.rangeErr "The \x22suggestions\x22 elements number must be equal to 7.") ∧
    mkToolkit {suggestions := some [.vStr "a", .vStr "b", .vStr "c", .vStr "d",
        .vStr "e", .vStr "f", .vNum 0]} =
      .error (.typeErr "All \x22suggestions\x22 values must be a string type.") :=
  C8_constructor_errors
    [.vStr "a", .vStr "b", .vStr "c", .vStr "d", .vStr "e", .vStr "f"]
    [.vStr "a", .vStr "b", .vStr "c", .vStr "d", .vStr "e", .vStr "f", .vStr "g", .vStr "h"]
    [.vStr "a", .vStr "b", .vStr "c", .vStr "d", .vStr "e", .vStr "f", .vNum 0]
    (by decide) (by decide) (by decide) (by decide) (by decide) (by decide)

/-- A failing flag check exhibits a present non-boolean value. -/
theorem badFlag_true (o : Option JSVal) (h : badFlag o = true) :
    ∃ j, o = some j ∧ j.isBool = false := by
  cases o with
  | none => exact absurd h (by simp [badFlag])
  | some j => exact ⟨j, rfl, by simpa [badFlag] using h⟩

/-- A passing flag check means any present value is boolean. -/
theorem badFlag_false (o : Option JSVal) (h : badFlag o = false) :
    ∀ j, o = some j → j.isBool = true := by
  intro j hj
  subst hj
  simpa [badFlag] using h

/-- Conversely, the flag check passes when any present value is boolean. -/
theorem badFlag_eq_false (o : Option JSVal) (h : ∀ j, o = some j → j.isBool = true) :
    badFlag o = false := by
  cases o with
  | none => rfl
  | some j => simp [badFlag, h j rfl]

/-- C6: `checkOptions` returns `{ok: true, reason: null}` exactly when the
request is an object with a present `size` satisfying
`1 <= size <= maximum`, every present flag boolean, and at least one flag
true.  The boundary sizes 1 and `maximum` satisfy the right-hand side, so
they are accepted. -/
theorem C6_checkOptions_ok_iff (tk : Toolkit) (v : ReqVal) :
    checkOptions tk v = ⟨true, none⟩ ↔ ∃ r, v = .obj r ∧ validRequest tk r := by
  cases v with
  | notObject => simp [checkOptions]
  | obj r =>
    have hE : (∃ r2, ReqVal.obj r = ReqVal.obj r2 ∧ validRequest tk r2) ↔
        validRequest tk r := by
      constructor
      · rintro ⟨r2, he, hv⟩
        cases he
        exact hv
      · intro hv
        exact ⟨r, rfl, hv⟩
    rw [hE]
    unfold validRequest
    simp only [checkOptions]
    cases hs : r.size with
    | none => simp [hs]
    | some sz =>
      simp only [hs, Option.isSome_some, Option.getD_some, true_and]
      split_ifs with h1 h2 h3 h4 h5 h6 h7
      · exact iff_of_false (by simp) (by intro h; omega)
      · exact iff_of_false (by simp) (by intro h; omega)
      · refine iff_of_false (by simp) ?_
        rintro ⟨-, -, hf, -⟩
        obtain ⟨j, hj, hb⟩ := badFlag_true _ h3
        rw [hf j hj] at hb
        exact absurd hb (by simp)
      · refine iff_of_false (by simp) ?_
        rintro ⟨-, -, -, hf, -⟩
        obtain ⟨j, hj, hb⟩ := badFlag_true _ h4
        rw [hf j hj] at hb
        exact absurd hb (by simp)
      · refine iff_of_false (by simp) ?_
        rintro ⟨-, -, -, -, hf, -⟩
        obtain ⟨j, hj, hb⟩ := badFlag_true _ h5
        rw [hf j hj] at hb
        exact absurd hb (by simp)
      · refine iff_of_false (by simp) ?_
        rintro ⟨-, -, -, -, -, hf, -⟩
        obtain ⟨j, hj, hb⟩ := badFlag_true _ h6
        rw [hf j hj] at hb
        exact absurd hb (by simp)
      · refine iff_of_false (by simp) ?_
        rintro ⟨-, -, -, -, -, -, ht⟩
        simp only [Bool.and_eq_true, Bool.not_eq_true'] at h7
        rcases ht with ht | ht | ht | ht <;> simp [ht] at h7
      · refine iff_of_true rfl ?_
        refine ⟨by omega, by omega, badFlag_false _ (by simpa using h3),
          badFlag_false _ (by simpa using h4), badFlag_false _ (by simpa using h5),
          badFlag_false _ (by simpa using h6), ?_⟩
        by_contra hc
        push_neg at hc
        obtain ⟨n1, n2, n3, n4⟩ := hc
        apply h7
        simp only [Bool.not_eq_true] at n1 n2 n3 n4
        simp [n1, n2, n3, n4]

/-- A request accepted by `checkOptions` has a present, positive size. -/
theorem size_pos_of_ok (tk : Toolkit) (r : GenRequest)
    (h : (checkOptions tk (.obj r)).ok = true) :
    ∃ sz : Int, r.size = some sz ∧ 1 ≤ sz := by
  cases hs : r.size with
  | none => simp [checkOptions, hs] at h
  | some sz =>
    refine ⟨sz, rfl, ?_⟩
    by_cases h1 : sz < 1
    · simp [checkOptions, hs, h1] at h
    · omega

/-- A flattened list of singletons is as long as the outer list. -/
theorem flatten_length_singletons {α : Type} :
    ∀ l : List (List α), (∀ x ∈ l, x.length = 1) → l.flatten.length = l.length := by
  intro l
  induction l with
  | nil => intro _; rfl
  | cons x xs ih =>
    intro h
    simp only [List.flatten_cons, List.length_append, List.length_cons,
      ih (fun y hy => h y (List.mem_cons_of_mem x hy)), h x (List.mem_cons_self x xs)]
    omega

/-- Every character of the joined draw results comes from the character
pool. -/
theorem mem_of_mem_flatten_map_jsIndex (chars : List Char) (g : Nat → Nat) (n : Nat) (c : Char)
    (h : c ∈ ((List.range n).map (fun i => jsIndex chars (g i))).flatten) : c ∈ chars := by
  rw [List.mem_flatten] at h
  obtain ⟨l, hl, hc⟩ := h
  rw [List.mem_map] at hl
  obtain ⟨i, -, rfl⟩ := hl
  unfold jsIndex at hc
  cases hG : chars.get? (g i) with
  | none => rw [hG] at hc; simp at hc
  | some d =>
    rw [hG] at hc
    simp at hc
    subst hc
    exact List.get?_mem hG

/-- A character of the flattened pool belongs to one of the alphabets whose
flag is truthy. -/
theorem inSelected_of_mem_chars (r : GenRequest) (c : Char)
    (h : c ∈ charsToArray (getSelectedChars r)) : inSelectedAlphabets r c := by
  unfold charsToArray getSelectedChars at h
  unfold inSelectedAlphabets
  by_cases t1 : truthyOpt r.numbers = true <;> by_cases t2 : truthyOpt r.symbols = true <;>
    by_cases t3 : truthyOpt r.uppercases = true <;> by_cases t4 : truthyOpt r.lowercases = true <;>
    simp [t1, t2, t3, t4] at h ⊢ <;> tauto

/-- C2: for every request accepted by `checkOptions` and every outcome of
the random draws (each draw is below the pool size, as `getRandomNumber`
guarantees), `generate` returns a string whose length is exactly the
requested size and whose characters all belong to the union of the
alphabets whose flags were set. -/
theorem C2_generate_shape (g : Nat → Nat) (tk : Toolkit) (r : GenRequest)
    (hok : (checkOptions tk (.obj r)).ok = true)
    (hg : ∀ i, g i < (charsToArray (getSelectedChars r)).length) :
    ∃ pw : String, generate g tk (.obj r) = some pw ∧
      (pw.toList.length : Int) = r.size.getD 0 ∧
      ∀ c ∈ pw.toList, inSelectedAlphabets r c := by
  obtain ⟨sz, hsz, h1⟩ := size_pos_of_ok tk r hok
  refine ⟨⟨((List.range (r.size.getD 0).toNat).map
      (fun i => jsIndex (charsToArray (getSelectedChars r)) (g i))).flatten⟩, ?_, ?_, ?_⟩
  · simp [generate, hok]
  · show (((List.range (r.size.getD 0).toNat).map
        (fun i => jsIndex (charsToArray (getSelectedChars r)) (g i))).flatten.length : Int) = _
    rw [flatten_length_singletons]
    · rw [List.length_map, List.length_range, hsz]
      show ((sz.toNat : Nat) : Int) = sz
      exact Int.toNat_of_nonneg (by omega)
    · intro x hx
      rw [List.mem_map] at hx
      obtain ⟨i, -, rfl⟩ := hx
      unfold jsIndex
      cases hG : (charsToArray (getSelectedChars r)).get? (g i) with
      | none =>
        exfalso
        have hi := hg i
        rw [List.get?_eq_none] at hG
        omega
      | some d => rfl
  · intro c hc
    exact inSelected_of_mem_chars r c (mem_of_mem_flatten_map_jsIndex _ g _ c hc)

/-- C2, witness: a size-4 lowercase-only request on the default instance
with the constant-zero draw function. -/
theorem C2_witness :
    ∃ pw : String, generate (fun _ => 0) defaultToolkit
        (.obj {size := some 4, lowercases := some (.vBool true)}) = some pw ∧
      (pw.toList.length : Int) =
        ({size := some 4, lowercases := some (.vBool true)} : GenRequest).size.getD 0 ∧
      ∀ c ∈ pw.toList,
        inSelectedAlphabets {size := some 4, lowercases := some (.vBool true)} c :=
  C2_generate_shape (fun _ => 0) defaultToolkit
    {size := some 4, lowercases := some (.vBool true)} (by decide)
    (fun i => by
      show 0 < (charsToArray (getSelectedChars
        {size := some 4, lowercases := some (.vBool true)})).length
      decide)

end PasswordToolKit
